import Mathlib

/-!
Shallow embedding of the authentication core of the xpay personal-finance
backend (src/backend/app): the password hasher and JWT issuance in
core/security.py, the Fernet field cipher in core/encryption.py, the
identity resolver in dependencies.py, the register/login routes in
routers/auth.py, the Google OAuth callback in routers/oauth.py, and the
User schema constraints of models.py.

External cryptographic libraries (passlib, python-jose, cryptography's
Fernet) are modelled as idealized primitives whose observable behaviour
follows their documented semantics:
  * passlib `CryptContext.verify` returns the match verdict for a
    well-formed hash of a configured scheme, returns False for a `None`
    hash (the documented hash-is-None convenience of passlib 1.7.1+,
    which runs `dummy_verify` and returns False), and raises
    `UnknownHashError` for a string that matches no configured scheme;
  * jose `jwt.encode`/`jwt.decode` sign a claim mapping under a key and
    reject a wrong key, a structurally malformed token, or an expired
    `exp` claim with a `JWTError`;
  * Fernet tokens are authenticated: decryption under the process key
    recovers the plaintext exactly, and any other input (tampered,
    malformed, minted under another key, or the empty string) raises
    `InvalidToken`.
Clock reads (`datetime.now`) are passed in explicitly: a function that
reads the clock twice takes two readings, in program order.
-/

namespace XPay

/-- Claim values stored in a JWT payload dictionary. -/
inductive CVal where
  | vStr (s : String)
  | vNat (n : Nat)
  deriving Repr, DecidableEq, BEq

/-- Python dictionaries keyed by strings, modelled as association lists
with unique keys; lookup follows dict lookup. -/
def lookupKey : List (String × CVal) → String → Option CVal
  | [], _ => none
  | (k, v) :: t, q => if k == q then some v else lookupKey t q

/-- `d[k] = v` on a dict: replaces any existing entry for `k`. -/
def setKey (l : List (String × CVal)) (k : String) (v : CVal) : List (String × CVal) :=
  l.filter (fun p => p.1 != k) ++ [(k, v)]

/-- The signing secret loaded from the environment at startup
(SECRET_KEY in core/security.py); any other key value is a different
signer. -/
def SECRET_KEY : Nat := 0

/-- ACCESS_TOKEN_EXPIRE_MINUTES in core/security.py: default 60. -/
def ACCESS_TOKEN_EXPIRE_MINUTES : Nat := 60

/-- A JWT: either a token signed under some key carrying a claim
mapping, or a string that is not a well-formed signed token. -/
inductive Token where
  | signed (key : Nat) (claims : List (String × CVal))
  | malformedTok (s : String)
  deriving Repr, DecidableEq, BEq

/-- The claim mapping embedded in a token (empty for a malformed one). -/
def claimsOf : Token → List (String × CVal)
  | .signed _ c => c
  | .malformedTok _ => []

/-- The `subject: Any` argument of `create_access_token`: callers pass a
string (`str(user.id)` in auth.py) or a raw id (`user.id` in oauth.py). -/
inductive SubjectArg where
  | ofStr (s : String)
  | ofNat (n : Nat)
  deriving Repr, DecidableEq, BEq

/-- Python `str(subject)` applied to a subject argument. -/
def strOf : SubjectArg → String
  | .ofStr s => s
  | .ofNat n => toString n

/-- `expires_delta or timedelta(minutes=ACCESS_TOKEN_EXPIRE_MINUTES)` in
seconds: Python `or` takes the default not only when `expires_delta` is
`None` but also when it is the falsy `timedelta(0)`. -/
def effectiveExpireSeconds : Option Nat → Nat
  | none => ACCESS_TOKEN_EXPIRE_MINUTES * 60
  | some d => if d == 0 then ACCESS_TOKEN_EXPIRE_MINUTES * 60 else d

/-- `create_access_token` of core/security.py. The function reads the
clock twice: `expire` is computed from the first reading `t1`, and the
`iat` claim from the second reading `t2` (both in epoch seconds, as jose
serializes datetimes). `data.copy()` is then updated with the three
reserved claims, which overwrite caller-supplied entries. -/
def create_access_token (subject : SubjectArg) (data : List (String × CVal))
    (expires_delta : Option Nat) (t1 t2 : Nat) : Token :=
  let expire := t1 + effectiveExpireSeconds expires_delta
  let to_encode := data
  let to_encode := setKey to_encode "sub" (.vStr (strOf subject))
  let to_encode := setKey to_encode "exp" (.vNat expire)
  let to_encode := setKey to_encode "iat" (.vNat t2)
  .signed SECRET_KEY to_encode

/-- jose `jwt.decode(token, key, algorithms)` at time `now`: fails on a
malformed token, a signature under a different key, or an expired `exp`
claim (an `exp` claim of the wrong type also fails claim validation);
all of these raise subclasses of `JWTError`. -/
def jwt_decode (key : Nat) (tok : Token) (now : Nat) : Except Unit (List (String × CVal)) :=
  match tok with
  | .malformedTok _ => .error ()
  | .signed k claims =>
    if k != key then .error ()
    else
      match lookupKey claims "exp" with
      | some (.vNat e) => if e < now then .error () else .ok claims
      | some (.vStr _) => .error ()
      | none => .ok claims

/-- A password-hash string: either a well-formed argon2 hash of a
password under a salt (as produced by `get_password_hash`), or a string
recognized by no configured passlib scheme. -/
inductive HashString where
  | argon2 (password : String) (salt : Nat)
  | invalid (s : String)
  deriving Repr, DecidableEq, BEq

/-- The exception passlib's `CryptContext.verify` raises for a hash
string that matches no configured scheme. -/
inductive PasslibError where
  | unknownHash
  deriving Repr, DecidableEq, BEq

/-- `get_password_hash` of core/security.py: argon2 hash with a fresh
random salt (the salt is passed in explicitly). -/
def get_password_hash (password : String) (salt : Nat) : HashString :=
  .argon2 password salt

/-- `verify_password` of core/security.py: a direct call to
`pwd_context.verify`. The stored `user.hashed_password` attribute flows
in unchecked, so the argument may be absent (`None`): passlib then runs
`dummy_verify` and returns False. A malformed hash string raises
`UnknownHashError`, which `verify_password` does not catch. -/
def verify_password (plain_password : String) (hashed_password : Option HashString) :
    Except PasslibError Bool :=
  match hashed_password with
  | none => .ok false
  | some (.argon2 pw _) => .ok (plain_password == pw)
  | some (.invalid _) => .error .unknownHash

/-- A User row (models.py): `hashed_password` is `Option` at the object
level — the ORM attribute defaults to `None` when the constructor omits
it — while the column itself is declared `nullable=False`. -/
structure User where
  id : Nat
  email : String
  hashedPassword : Option HashString
  fullName : String
  isActive : Bool
  deriving Repr, DecidableEq, BEq

/-- `db.query(User).filter(User.email == email).first()`. -/
def findByEmail (db : List User) (email : String) : Option User :=
  db.find? (fun u => u.email == email)

/-- The NOT NULL constraint of models.py on `users.hashed_password`: a
row the store accepts must carry a hash. -/
def storeAccepts (u : User) : Bool :=
  u.hashedPassword.isSome

/-- Column-level email uniqueness: true when the email is taken. -/
def emailTaken (db : List User) (email : String) : Bool :=
  db.any (fun u => u.email == email)

/-- Errors surfaced by route handlers: an `HTTPException` with status,
detail and an optional `WWW-Authenticate: Bearer` challenge header, or a
database `IntegrityError` escaping unhandled. -/
inductive ApiError where
  | httpException (status : Nat) (detail : String) (wwwAuthenticateBearer : Bool)
  | integrityError
  deriving Repr, DecidableEq, BEq

/-- `db.add` + `db.commit`: the store rejects a duplicate email (unique
constraint) and a missing password hash (NOT NULL constraint), raising
`IntegrityError`; otherwise the row is persisted. -/
def insertUser (db : List User) (u : User) : Except ApiError (List User) :=
  if emailTaken db u.email then .error .integrityError
  else if !storeAccepts u then .error .integrityError
  else .ok (db ++ [u])

/-- The uniform 401 raised by `login` in routers/auth.py for every
credential failure. -/
def invalidCredentials : ApiError :=
  .httpException 401 "Invalid email or password" true

/-- `login` of routers/auth.py: look up by email, verify the password
against the stored hash, check the active flag; each failure raises the
same 401. An exception from `pwd_context.verify` (malformed stored
hash) is not caught and escapes the handler. Token issuance reads the
clock twice (`t1`, `t2`). -/
def login (email password : String) (db : List User) (t1 t2 : Nat) :
    Except ApiError (User × Token) :=
  match findByEmail db email with
  | none => .error invalidCredentials
  | some user =>
    match verify_password password user.hashedPassword with
    | .error _ => .error (.httpException 500 "Internal Server Error" false)
    | .ok ok =>
      if !ok then .error invalidCredentials
      else if !user.isActive then .error invalidCredentials
      else .ok (user, create_access_token (.ofStr (toString user.id)) [] none t1 t2)

/-- `register` of routers/auth.py: optimistic duplicate pre-check
against the store as seen at check time (`dbAtCheck`), then insert
against the store as seen at commit time (`dbAtInsert`) — the two differ
when a concurrent registration lands in between. An `IntegrityError`
from the insert is caught, the session rolled back, and the same 400
raised as on the pre-check path. Returns the handler's outcome and the
final store. -/
def register (email password full_name : String) (salt : Nat)
    (dbAtCheck dbAtInsert : List User) (freshId t1 t2 : Nat) :
    Except ApiError (User × Token) × List User :=
  match findByEmail dbAtCheck email with
  | some _ => (.error (.httpException 400 "Email already registered" false), dbAtInsert)
  | none =>
    let new_user : User :=
      { id := freshId, email := email,
        hashedPassword := some (get_password_hash password salt),
        fullName := full_name, isActive := true }
    match insertUser dbAtInsert new_user with
    | .error _ => (.error (.httpException 400 "Email already registered" false), dbAtInsert)
    | .ok db' =>
      (.ok (new_user, create_access_token (.ofStr (toString new_user.id)) [] none t1 t2), db')

/-- The uniform 401 of `get_current_user` in dependencies.py. -/
def credentialsException : ApiError :=
  .httpException 401 "Could not validate credentials" true

/-- `payload.get("sub")` compared against `User.id` in the store query:
a string subject matches a row whose stringified id equals it; a
non-string subject value matches no row. -/
def claimMatchesId (v : CVal) (u : User) : Bool :=
  match v with
  | .vStr s => toString u.id == s
  | .vNat _ => false

/-- `get_current_user` of dependencies.py: decode the token (a
`JWTError` is caught and converted), require a `sub` claim, and look the
user up; all three failures raise the one `credentials_exception`. -/
def get_current_user (tok : Token) (db : List User) (now : Nat) : Except ApiError User :=
  match jwt_decode SECRET_KEY tok now with
  | .error _ => .error credentialsException
  | .ok payload =>
    match lookupKey payload "sub" with
    | none => .error credentialsException
    | some v =>
      match db.find? (fun u => claimMatchesId v u) with
      | none => .error credentialsException
      | some user => .ok user

/-- `google_callback` of routers/oauth.py. Inputs: the outcome of
`authorize_access_token` (the code-for-token exchange), the `email` and
`name` fields of the provider's userinfo response, the store, a fresh id
for a created row, and the two clock readings of token issuance.
Returns the handler's outcome (the redirect carries the issued token)
and the final store. The `name` default applies when the provider omits
the name or sends an empty (falsy) one. A commit failure
(`IntegrityError`) is not caught here; the row is not persisted. -/
def google_callback (exchange : Except Unit Unit) (uemail uname : Option String)
    (db : List User) (freshId t1 t2 : Nat) : Except ApiError Token × List User :=
  match exchange with
  | .error _ => (.error (.httpException 400 "Failed to authorize with Google" false), db)
  | .ok _ =>
    match uemail with
    | none =>
      (.error (.httpException 400 "Google account does not have an email address" false), db)
    | some email =>
      match findByEmail db email with
      | some user =>
        (.ok (create_access_token (.ofNat user.id)
          [("email", .vStr user.email), ("full_name", .vStr user.fullName)] none t1 t2), db)
      | none =>
        let name :=
          match uname with
          | none => "Unknown Google User"
          | some s => if s == "" then "Unknown Google User" else s
        let user : User :=
          { id := freshId, email := email, hashedPassword := none,
            fullName := name, isActive := true }
        match insertUser db user with
        | .error e => (.error e, db)
        | .ok db' =>
          (.ok (create_access_token (.ofNat user.id)
            [("email", .vStr user.email), ("full_name", .vStr user.fullName)] none t1 t2), db')

/-- The Fernet key loaded at startup (FERNET_KEY in core/encryption.py);
any other key value is a different key. -/
def FERNET_KEY : Nat := 0

/-- A string in ciphertext position: the empty string, a well-formed
Fernet token minted under some key with some nonce (such tokens are
never empty), or any other string (tampered or structurally malformed —
no well-formed token under any key). -/
inductive Ct where
  | emptyStr
  | tok (key : Nat) (plain : String) (nonce : Nat)
  | malformed (s : String)
  deriving Repr, DecidableEq, BEq

/-- `encrypt` of core/encryption.py: `None` maps to the empty string;
otherwise `fernet.encrypt` mints a token under the process key with a
fresh random nonce (passed in explicitly). -/
def encrypt (nonce : Nat) (plaintext : Option String) : Ct :=
  match plaintext with
  | none => .emptyStr
  | some p => .tok FERNET_KEY p nonce

/-- `fernet.decrypt` under the process key: recovers the plaintext of a
token minted under that key; every other input raises `InvalidToken`. -/
def fernet_decrypt (c : Ct) : Except Unit String :=
  match c with
  | .emptyStr => .error ()
  | .tok k p _ => if k == FERNET_KEY then .ok p else .error ()
  | .malformed _ => .error ()

/-- `decrypt` of core/encryption.py: `if not ciphertext` returns `None`
for an absent or empty input; otherwise `fernet.decrypt` is tried and
`InvalidToken` is caught and converted to `None`. -/
def decrypt (ciphertext : Option Ct) : Option String :=
  match ciphertext with
  | none => none
  | some .emptyStr => none
  | some c =>
    match fernet_decrypt c with
    | .ok s => some s
    | .error _ => none

/-- Whether a string in ciphertext position is a valid ciphertext under
the process key. -/
def validUnderKey (c : Ct) : Bool :=
  match c with
  | .tok k _ _ => k == FERNET_KEY
  | _ => false

/-! Helper lemmas about dict update and lookup. -/

theorem lookup_setKey_self (l : List (String × CVal)) (k : String) (v : CVal) :
    lookupKey (setKey l k v) k = some v := by
  unfold setKey
  induction l with
  | nil => simp [lookupKey]
  | cons hd t ih =>
    by_cases hk : hd.1 = k
    · simpa [List.filter_cons, hk] using ih
    · simpa [List.filter_cons, hk, lookupKey] using ih

theorem lookup_setKey_ne (l : List (String × CVal)) (k : String) (v : CVal)
    (q : String) (h : q ≠ k) :
    lookupKey (setKey l k v) q = lookupKey l q := by
  unfold setKey
  induction l with
  | nil => simp [lookupKey, Ne.symm h]
  | cons hd t ih =>
    obtain ⟨a, b⟩ := hd
    by_cases hq : a = q
    · have hak : (a != k) = true := by simp [hq, h]
      have haq : (a == q) = true := by simp [hq]
      simp [List.filter_cons, hak, lookupKey, haq]
    · by_cases hk : a = k
      · have hak : (a != k) = false := by simp [hk]
        have haq : (a == q) = false := by simp [hq]
        simp [List.filter_cons, hak, lookupKey, haq, ih]
      · have hak : (a != k) = true := by simp [hk]
        have haq : (a == q) = false := by simp [hq]
        simp [List.filter_cons, hak, lookupKey, haq, ih]

/-- C1: for every login attempt, each of the four failure causes — no
user with the given email, the stored password hash being absent (the
verifier then reports a non-match), the password failing verification,
and the user being inactive — produces the same uniform
`invalidCredentials` failure (401, "Invalid email or password",
WWW-Authenticate challenge), and login raises nothing else for these
causes. -/
theorem login_uniform_invalid_credentials (email password : String) (db : List User)
    (t1 t2 : Nat) :
    (findByEmail db email = none →
      login email password db t1 t2 = .error invalidCredentials) ∧
    (∀ u, findByEmail db email = some u → u.hashedPassword = none →
      login email password db t1 t2 = .error invalidCredentials) ∧
    (∀ u, findByEmail db email = some u →
      verify_password password u.hashedPassword = .ok false →
      login email password db t1 t2 = .error invalidCredentials) ∧
    (∀ u, findByEmail db email = some u →
      verify_password password u.hashedPassword = .ok true → u.isActive = false →
      login email password db t1 t2 = .error invalidCredentials) := by
  refine ⟨?_, ?_, ?_, ?_⟩
  · intro h; simp [login, h]
  · intro u hu hp; simp [login, hu, hp, verify_password]
  · intro u hu hv; simp [login, hu, hv]
  · intro u hu hv ha; simp [login, hu, hv, ha]

/-- C1 witness: a store whose only user has no stored hash; login with
any password fails with the uniform 401. -/
theorem login_uniform_invalid_credentials_witness :
    login "x@y.z" "pw"
        [{ id := 1, email := "x@y.z", hashedPassword := none,
           fullName := "X", isActive := true }] 0 0
      = .error invalidCredentials :=
  (login_uniform_invalid_credentials "x@y.z" "pw" _ 0 0).2.1
    { id := 1, email := "x@y.z", hashedPassword := none,
      fullName := "X", isActive := true } rfl rfl

/-- C2: identity resolution fails with the single uniform
`credentialsException` in exactly three cases — token verification
failure, a missing subject claim, or no matching user — the error value
is the same in all three (indistinguishable to the caller), and
otherwise the resolved user record is returned. -/
theorem get_current_user_uniform_failure (tok : Token) (db : List User) (now : Nat) :
    (∀ e, get_current_user tok db now = .error e → e = credentialsException) ∧
    (∀ err, jwt_decode SECRET_KEY tok now = .error err →
      get_current_user tok db now = .error credentialsException) ∧
    (∀ c, jwt_decode SECRET_KEY tok now = .ok c → lookupKey c "sub" = none →
      get_current_user tok db now = .error credentialsException) ∧
    (∀ c v, jwt_decode SECRET_KEY tok now = .ok c → lookupKey c "sub" = some v →
      db.find? (fun u => claimMatchesId v u) = none →
      get_current_user tok db now = .error credentialsException) ∧
    (∀ c v u, jwt_decode SECRET_KEY tok now = .ok c → lookupKey c "sub" = some v →
      db.find? (fun u => claimMatchesId v u) = some u →
      get_current_user tok db now = .ok u) := by
  refine ⟨?_, ?_, ?_, ?_, ?_⟩
  · intro e he
    rcases hd : jwt_decode SECRET_KEY tok now with err | c
    · simp [get_current_user, hd] at he; exact he.symm
    · rcases hs : lookupKey c "sub" with _ | v
      · simp [get_current_user, hd, hs] at he; exact he.symm
      · rcases hf : db.find? (fun u => claimMatchesId v u) with _ | u
        · simp [get_current_user, hd, hs, hf] at he; exact he.symm
        · simp [get_current_user, hd, hs, hf] at he
  · intro err hd; simp [get_current_user, hd]
  · intro c hd hs; simp [get_current_user, hd, hs]
  · intro c v hd hs hf; simp [get_current_user, hd, hs, hf]
  · intro c v u hd hs hf; simp [get_current_user, hd, hs, hf]

/-- C2 witness: a structurally malformed token resolves to the uniform
credentials failure. -/
theorem get_current_user_uniform_failure_witness :
    get_current_user (.malformedTok "x") [] 0 = .error credentialsException :=
  (get_current_user_uniform_failure (.malformedTok "x") [] 0).2.1 () rfl

/-- C3 counterexample: with the default duration (3600 s), a token
issued with clock readings 0 (for expiry) and 1 (for issued-at) embeds
exp = 3600 and iat = 1, and 3600 ≠ 1 + 3600 — expiry is not issued-at
plus the duration. Also, a supplied expiry override of zero is ignored
in favour of the default (exp = 3605 ≠ 5 + 0). -/
theorem token_exp_not_iat_plus_duration_cex :
    (lookupKey (claimsOf (create_access_token (.ofStr "u") [] none 0 1)) "exp"
        = some (.vNat 3600) ∧
      lookupKey (claimsOf (create_access_token (.ofStr "u") [] none 0 1)) "iat"
        = some (.vNat 1) ∧
      (3600 : Nat) ≠ 1 + 3600) ∧
    (lookupKey (claimsOf (create_access_token (.ofStr "u") [] (some 0) 5 5)) "exp"
        = some (.vNat 3605) ∧
      (3605 : Nat) ≠ 5 + 0) := by
  exact ⟨⟨by decide, by decide, by decide⟩, by decide, by decide⟩

/-- C3 (amended): the embedded expiry equals the first clock reading of
the issuance plus the effective duration (the override when supplied
and nonzero, otherwise the default 60 minutes), the embedded issued-at
equals the second clock reading, and when the two readings coincide the
expiry equals issued-at plus that duration exactly. -/
theorem token_exp_first_reading_plus_duration (s : SubjectArg)
    (data : List (String × CVal)) (delta : Option Nat) (t1 t2 : Nat) :
    lookupKey (claimsOf (create_access_token s data delta t1 t2)) "exp"
        = some (.vNat (t1 + effectiveExpireSeconds delta)) ∧
    lookupKey (claimsOf (create_access_token s data delta t1 t2)) "iat"
        = some (.vNat t2) ∧
    (t1 = t2 →
      lookupKey (claimsOf (create_access_token s data delta t1 t2)) "exp"
        = some (.vNat (t2 + effectiveExpireSeconds delta))) := by
  refine ⟨?_, ?_, ?_⟩
  · show lookupKey (setKey (setKey (setKey data "sub" _) "exp" _) "iat" _) "exp" = _
    rw [lookup_setKey_ne _ _ _ _ (by decide), lookup_setKey_self]
  · exact lookup_setKey_self ..
  · intro h
    subst h
    show lookupKey (setKey (setKey (setKey data "sub" _) "exp" _) "iat" _) "exp" = _
    rw [lookup_setKey_ne _ _ _ _ (by decide), lookup_setKey_self]

/-- C3 witness: with coinciding clock readings the expiry claim equals
issued-at plus the default duration. -/
theorem token_exp_first_reading_plus_duration_witness :
    lookupKey (claimsOf (create_access_token (.ofStr "u") [] none 7 7)) "exp"
      = some (.vNat (7 + effectiveExpireSeconds none)) :=
  (token_exp_first_reading_plus_duration (.ofStr "u") [] none 7 7).2.2 rfl

/-- C4: the issued token's subject claim is the stringified subject
argument, its expiry and issued-at are the issuer-computed values, and
every caller-supplied claim under any other key survives unchanged —
caller-supplied values for the three reserved keys never survive. -/
theorem token_reserved_claims_win (s : SubjectArg) (data : List (String × CVal))
    (delta : Option Nat) (t1 t2 : Nat) :
    lookupKey (claimsOf (create_access_token s data delta t1 t2)) "sub"
        = some (.vStr (strOf s)) ∧
    lookupKey (claimsOf (create_access_token s data delta t1 t2)) "exp"
        = some (.vNat (t1 + effectiveExpireSeconds delta)) ∧
    lookupKey (claimsOf (create_access_token s data delta t1 t2)) "iat"
        = some (.vNat t2) ∧
    (∀ k, k ≠ "sub" → k ≠ "exp" → k ≠ "iat" →
      lookupKey (claimsOf (create_access_token s data delta t1 t2)) k
        = lookupKey data k) := by
  refine ⟨?_, ?_, ?_, ?_⟩
  · show lookupKey (setKey (setKey (setKey data "sub" _) "exp" _) "iat" _) "sub" = _
    rw [lookup_setKey_ne _ _ _ _ (by decide), lookup_setKey_ne _ _ _ _ (by decide),
      lookup_setKey_self]
  · show lookupKey (setKey (setKey (setKey data "sub" _) "exp" _) "iat" _) "exp" = _
    rw [lookup_setKey_ne _ _ _ _ (by decide), lookup_setKey_self]
  · exact lookup_setKey_self ..
  · intro k hs he hi
    show lookupKey (setKey (setKey (setKey data "sub" _) "exp" _) "iat" _) k = _
    rw [lookup_setKey_ne _ _ _ _ hi, lookup_setKey_ne _ _ _ _ he,
      lookup_setKey_ne _ _ _ _ hs]

/-- C4 witness: a caller-supplied "sub" claim is overwritten by the
stringified subject, while an unreserved caller claim survives. -/
theorem token_reserved_claims_win_witness :
    lookupKey (claimsOf (create_access_token (.ofStr "42")
        [("sub", CVal.vStr "evil"), ("role", CVal.vStr "admin")] none 0 0)) "sub"
      = some (.vStr "42") ∧
    lookupKey (claimsOf (create_access_token (.ofStr "42")
        [("sub", CVal.vStr "evil"), ("role", CVal.vStr "admin")] none 0 0)) "role"
      = lookupKey [("sub", CVal.vStr "evil"), ("role", CVal.vStr "admin")] "role" :=
  ⟨(token_reserved_claims_win (.ofStr "42")
      [("sub", CVal.vStr "evil"), ("role", CVal.vStr "admin")] none 0 0).1,
    (token_reserved_claims_win (.ofStr "42")
      [("sub", CVal.vStr "evil"), ("role", CVal.vStr "admin")] none 0 0).2.2.2
      "role" (by decide) (by decide) (by decide)⟩

/-- C5: decrypt inverts encrypt for every plaintext (the empty string
included); encrypting the absent value yields the empty string, and
decrypting the empty or absent value yields the absent value. -/
theorem cipher_round_trip :
    (∀ (nonce : Nat) (p : String), decrypt (some (encrypt nonce (some p))) = some p) ∧
    (∀ nonce, encrypt nonce none = .emptyStr) ∧
    decrypt (some .emptyStr) = none ∧ decrypt none = none :=
  ⟨fun _ _ => rfl, fun _ => rfl, rfl, rfl⟩

/-- C6: every input in ciphertext position that is not a valid
ciphertext under the process key — empty, malformed, or minted under a
different key — decrypts to the absent value; decrypt is total, so no
exception escapes and nothing is partially decoded. -/
theorem decrypt_invalid_returns_none (c : Ct) (h : validUnderKey c = false) :
    decrypt (some c) = none := by
  cases c with
  | emptyStr => rfl
  | tok k p n =>
    simp only [validUnderKey] at h
    simp [decrypt, fernet_decrypt, h]
  | malformed s => rfl

/-- C6 witness: a malformed ciphertext decrypts to the absent value. -/
theorem decrypt_invalid_returns_none_witness :
    decrypt (some (Ct.malformed "junk")) = none :=
  decrypt_invalid_returns_none (Ct.malformed "junk") rfl

/-- C7 counterexample: for a hash string recognized by no configured
scheme, verification raises `UnknownHashError` instead of returning
false — the claimed totality fails. -/
theorem verify_malformed_hash_raises_cex :
    verify_password "secret" (some (.invalid "not-a-hash"))
        = .error .unknownHash ∧
    verify_password "secret" (some (.invalid "not-a-hash")) ≠ .ok false := by
  exact ⟨rfl, by simp [verify_password]⟩

/-- C7 (amended): verification returns true iff the password matches a
well-formed hash, returns false for an absent hash, but raises
`UnknownHashError` for a malformed hash string rather than returning
false. -/
theorem verify_password_behavior :
    (∀ (pw pw' : String) (salt : Nat),
      verify_password pw (some (.argon2 pw' salt)) = .ok (pw == pw')) ∧
    (∀ pw, verify_password pw none = .ok false) ∧
    (∀ (pw s : String), verify_password pw (some (.invalid s)) = .error .unknownHash) :=
  ⟨fun _ _ _ => rfl, fun _ => rfl, fun _ _ => rfl⟩

/-- C8 counterexample: registering an already-present email fails with
status 400 ("Email already registered"), and 400 is not the claimed
409. -/
theorem register_duplicate_not_409_cex :
    (register "a@b.c" "pw" "A" 0
        [{ id := 1, email := "a@b.c", hashedPassword := some (.argon2 "q" 0),
           fullName := "B", isActive := true }]
        [{ id := 1, email := "a@b.c", hashedPassword := some (.argon2 "q" 0),
           fullName := "B", isActive := true }] 2 0 0).1
      = .error (.httpException 400 "Email already registered" false) ∧
    (400 : Nat) ≠ 409 := by
  exact ⟨rfl, by decide⟩

/-- C8 (amended): a duplicate email — caught by the optimistic
pre-check or by the store's uniqueness constraint on insert — makes
registration fail with the same 400 "Email already registered"
failure on both paths; the raw `IntegrityError` never reaches the
caller, and the store is left as it was (rolled back, no second row). -/
theorem register_duplicate_uniform_400 (email password full_name : String) (salt : Nat)
    (dbAtCheck dbAtInsert : List User) (freshId t1 t2 : Nat)
    (h : findByEmail dbAtCheck email ≠ none ∨ emailTaken dbAtInsert email = true) :
    register email password full_name salt dbAtCheck dbAtInsert freshId t1 t2
      = (.error (.httpException 400 "Email already registered" false), dbAtInsert) := by
  rcases hc : findByEmail dbAtCheck email with _ | u
  · rcases h with h | h
    · exact absurd hc h
    · simp [register, hc, insertUser, h]
  · simp [register, hc]

/-- C8 witness: the constraint path — the pre-check sees an empty
store, the insert-time store already holds the email; registration
fails with the 400 and the store is unchanged. -/
theorem register_duplicate_uniform_400_witness :
    register "a@b.c" "pw" "A" 0 []
        [{ id := 1, email := "a@b.c", hashedPassword := some (.argon2 "q" 0),
           fullName := "B", isActive := true }] 2 0 0
      = (.error (.httpException 400 "Email already registered" false),
         [{ id := 1, email := "a@b.c", hashedPassword := some (.argon2 "q" 0),
            fullName := "B", isActive := true }]) :=
  register_duplicate_uniform_400 "a@b.c" "pw" "A" 0 [] _ 2 0 0 (Or.inr (by decide))

/-- C9: the OAuth callback leaves the user store unchanged whenever the
code-for-token exchange fails or the userinfo response lacks an email,
and the store changes only after both checks have passed. -/
theorem oauth_callback_no_partial_user (exchange : Except Unit Unit)
    (uemail uname : Option String) (db : List User) (freshId t1 t2 : Nat) :
    (exchange = .error () →
      (google_callback exchange uemail uname db freshId t1 t2).2 = db) ∧
    (uemail = none →
      (google_callback exchange uemail uname db freshId t1 t2).2 = db) ∧
    ((google_callback exchange uemail uname db freshId t1 t2).2 ≠ db →
      exchange = .ok () ∧ ∃ e, uemail = some e) := by
  refine ⟨?_, ?_, ?_⟩
  · intro h; subst h; rfl
  · intro h
    cases exchange with
    | error e => rfl
    | ok a => subst h; rfl
  · intro hne
    cases exchange with
    | error e => exact absurd rfl hne
    | ok a =>
      cases uemail with
      | none => exact absurd rfl hne
      | some e =>
        cases a
        exact ⟨rfl, e, rfl⟩

/-- C9 witness: a failed code-for-token exchange leaves the store
unchanged. -/
theorem oauth_callback_no_partial_user_witness :
    (google_callback (.error ()) none none [] 1 0 0).2 = [] :=
  (oauth_callback_no_partial_user (.error ()) none none [] 1 0 0).1 rfl

/-- C10: the schema's NOT NULL constraint on the password hash rejects
the user row the OAuth callback constructs without one — on a fresh
email the callback ends in an uncaught `IntegrityError` and persists no
user, instead of creating the password-less federated account its own
tests and the spec expect. -/
theorem oauth_new_user_violates_not_null :
    google_callback (.ok ()) (some "newuser@example.com") (some "New User") [] 1 0 0
      = (.error .integrityError, []) ∧
    storeAccepts
        { id := 1, email := "newuser@example.com", hashedPassword := none,
          fullName := "New User", isActive := true } = false := by
  exact ⟨rfl, rfl⟩

end XPay
